import Mathlib

/-!
Shallow embedding of the calibration engine of OpenVR-SpaceCalibrator
(`src/OpenVR-SpaceCalibrator/Calibration.cpp`), together with theorems
settling the specification claims.

Numeric values (`double` in the source) are modelled as real numbers.
External collaborators (the Eigen SVD / least-squares / Euler-angle
routines, and the OpenVR device-metadata queries) are modelled as
abstract oracles bundled in the `Oracles` structure: they are library
code outside this repository, used by the repository only through their
interfaces.
-/

namespace OVRSC

open scoped Classical

/-- Vectors with three real entries (`Eigen::Vector3d`). -/
abbrev V3 := Fin 3 → ℝ

/-- Matrices of shape 3×3 (`Eigen::Matrix3d`). -/
abbrev M3 := Matrix (Fin 3) (Fin 3) ℝ

/-- Euclidean norm of a 3-vector (`Eigen .norm()`). -/
noncomputable def vnorm (v : V3) : ℝ :=
  Real.sqrt (v 0 ^ 2 + v 1 ^ 2 + v 2 ^ 2)

/-- Division of a 3-vector by its norm (`Eigen .normalize()`). The source
divides by the norm; for the zero vector IEEE arithmetic yields NaN where
this real-valued model yields 0, but no claim depends on that case. -/
noncomputable def vnormalize (v : V3) : V3 :=
  fun i => v i / vnorm v

/-- Embeds `struct Pose`, Calibration.cpp lines 38-54: a rotation matrix and a
translation vector. -/
structure Pose where
  rot : M3
  trans : V3

/-- A fixed default pose standing for the uninitialized `Pose()` of the
source; it is never read behind a false validity flag. -/
def defaultPose : Pose := ⟨1, fun _ => 0⟩

instance : Inhabited Pose := ⟨defaultPose⟩

/-- Embeds `struct Sample`, lines 56-62: a (reference pose, target pose) pair with
a validity flag.  `Sample()` gives `valid = false`; `Sample(ref, target)`
gives `valid = true`. -/
structure Sample where
  ref : Pose
  target : Pose
  valid : Bool

instance : Inhabited Sample := ⟨⟨defaultPose, defaultPose, false⟩⟩

/-- Embeds `struct DSample`, lines 64-68: the delta-rotation sample derived from a
pair of `Sample`s.  Its validity is a real-valued comparison in the source,
hence a `Prop` here. -/
structure DSample where
  valid : Prop
  ref : V3
  target : V3

/-- Embeds `AxisFromRotationMatrix3`, lines 86-89: the antisymmetric-part axis of a
rotation matrix. -/
def AxisFromRotationMatrix3 (rot : M3) : V3 :=
  ![rot 2 1 - rot 1 2, rot 0 2 - rot 2 0, rot 1 0 - rot 0 1]

/-- Embeds `AngleFromRotationMatrix3`, lines 91-94: rotation angle recovered from
the trace. -/
noncomputable def AngleFromRotationMatrix3 (rot : M3) : ℝ :=
  Real.arccos ((rot 0 0 + rot 1 1 + rot 2 2 - 1) / 2)

/-- Embeds `DeltaRotationSamples`, lines 96-116: relative rotations between two
samples, their axes, and the validity gate (both angles above 0.4 rad and
both axis norms above 0.01, checked before the axes are normalized). -/
noncomputable def DeltaRotationSamples (s1 s2 : Sample) : DSample :=
  let dref := s1.ref.rot * s2.ref.rot.transpose
  let dtarget := s1.target.rot * s2.target.rot.transpose
  let dsRef := AxisFromRotationMatrix3 dref
  let dsTarget := AxisFromRotationMatrix3 dtarget
  let refA := AngleFromRotationMatrix3 dref
  let targetA := AngleFromRotationMatrix3 dtarget
  { valid := refA > 0.4 ∧ targetA > 0.4 ∧ vnorm dsRef > 0.01 ∧ vnorm dsTarget > 0.01
    ref := vnormalize dsRef
    target := vnormalize dsTarget }

/-- Embeds `enum class CalibrationState` (declared in Calibration.h, used throughout
Calibration.cpp).  `None` is the idle state. -/
inductive CalibrationState where
  | None
  | Editing
  | Begin
  | Rotation
  | Translation
deriving DecidableEq

/-- The progress messages the engine appends via `CalCtx.Message`, as an
inductive tag instead of formatted text. -/
inductive Msg where
  | missingReference
  | referenceNotTracking
  | missingTarget
  | targetNotTracking
  | abortingCalibration
  | startingCalibration (referenceID targetID : ℤ)
  | dot
  | newline
  | gotSamples (numSamples numDeltas : ℕ)
  | calibratedRotationIs (euler : V3)
  | calibratedTranslationIs (transcm : V3)
  | finishedCalibration

/-- Quaternion with Eigen's coefficient names (`x,y,z,w`). -/
structure Quat where
  w : ℝ
  x : ℝ
  y : ℝ
  z : ℝ

/-- Hamilton product, as performed by `Eigen::Quaterniond` composition. -/
def quatMul (a b : Quat) : Quat :=
  { w := a.w * b.w - a.x * b.x - a.y * b.y - a.z * b.z
    x := a.w * b.x + a.x * b.w + a.y * b.z - a.z * b.y
    y := a.w * b.y - a.x * b.z + a.y * b.w + a.z * b.x
    z := a.w * b.z + a.x * b.y - a.y * b.x + a.z * b.w }

/-- Embeds `Eigen::AngleAxisd(angle, axis)` as a quaternion for a unit axis. -/
noncomputable def angleAxisQuat (angle : ℝ) (axis : V3) : Quat :=
  { w := Real.cos (angle / 2)
    x := Real.sin (angle / 2) * axis 0
    y := Real.sin (angle / 2) * axis 1
    z := Real.sin (angle / 2) * axis 2 }

/-- Embeds `VRRotationQuat`, lines 253-268: Euler degrees (Z, then Y, then X) to the
actuator's quaternion. -/
noncomputable def VRRotationQuat (eulerdeg : V3) : Quat :=
  let euler : V3 := fun i => eulerdeg i * Real.pi / 180
  quatMul (quatMul (angleAxisQuat (euler 0) ![0,0,1]) (angleAxisQuat (euler 1) ![0,1,0]))
    (angleAxisQuat (euler 2) ![1,0,0])

/-- Embeds `VRTranslationVec`, lines 270-278: centimeters to meters. -/
def VRTranslationVec (transcm : V3) : V3 :=
  fun i => transcm i * 0.01

/-- The identity rotation offset `zeroQ` of `ResetAndDisableOffsets`. -/
def zeroQ : Quat := ⟨1, 0, 0, 0⟩

/-- Commands pushed to the external input-emulator actuator and to profile
storage; the core treats them as fire-and-forget. -/
inductive Event where
  | setWorldFromDriverRotationOffset (id : ℤ) (q : Quat)
  | setWorldFromDriverTranslationOffset (id : ℤ) (v : V3)
  | enableDeviceOffsets (id : ℤ) (enable : Bool)
  | saveProfile (calibratedRotation calibratedTranslation : V3)

/-- Embeds `vr::TrackedDevicePose_t`, restricted to the two fields the engine
reads. -/
structure TrackedDevicePose where
  bPoseIsValid : Bool
  mDeviceToAbsoluteTracking : Pose

/-- Embeds `vr::ETrackedDeviceClass`, restricted to the cases the engine
distinguishes. -/
inductive DeviceClass where
  | Invalid
  | HMD
  | TrackingReference
  | Other
deriving DecidableEq

/-- Result of `Eigen::BDCSVD::compute` with thin U and V on a 3×3 matrix. -/
structure SVD3 where
  U : M3
  S : V3
  V : M3

/-- External library and runtime routines the engine calls but whose code
lives outside this repository (Eigen decompositions and OpenVR device
metadata), modelled as abstract oracles. -/
structure Oracles where
  svd : M3 → SVD3
  eulerAngles210 : M3 → V3
  lsqSolve : List V3 → List ℝ → V3
  deviceClass : ℤ → DeviceClass
  trackingSystemName : ℤ → Option String

/-- Embeds `CalibrationContext` (declared in Calibration.h): the process-wide
mutable calibration state.  The function-static `samples` vector of
`CalibrationTick` is part of the persistent machine state and is modelled
here as a context field; the per-tick `devicePoses` snapshot is passed to
the tick as an argument since it is refreshed from the runtime on every
processed tick. -/
structure CalibrationContext where
  state : CalibrationState
  referenceID : ℤ
  targetID : ℤ
  calibratedRotation : V3
  calibratedTranslation : V3
  targetTrackingSystem : String
  validProfile : Bool
  timeLastTick : ℝ
  timeLastScan : ℝ
  wantedUpdateInterval : ℝ
  messages : List Msg
  samples : List Sample

/-- Embeds `StartCalibration`, lines 342-347. -/
def StartCalibration (ctx : CalibrationContext) : CalibrationContext :=
  { ctx with
    state := CalibrationState.Begin
    wantedUpdateInterval := 0.0
    messages := [] }

/-- Embeds `ResetAndDisableOffsets`, lines 329-340, as the actuator commands it
issues. -/
def ResetAndDisableOffsets (id : ℤ) : List Event :=
  [Event.setWorldFromDriverRotationOffset id zeroQ,
   Event.setWorldFromDriverTranslationOffset id (fun _ => 0),
   Event.enableDeviceOffsets id false]

/-- Embeds `ScanAndApplyProfile`, lines 280-327: for each of the 64 device slots,
skip invalid devices, devices of other tracking systems, and
reference-class/HMD devices; re-apply the stored offsets to the rest. -/
noncomputable def ScanAndApplyProfile (O : Oracles) (ctx : CalibrationContext) : List Event :=
  (List.range 64).flatMap (fun n =>
    let id : ℤ := n
    if O.deviceClass id = DeviceClass.Invalid then []
    else
      match O.trackingSystemName id with
      | none => []
      | some ts =>
        if ts ≠ ctx.targetTrackingSystem then []
        else if O.deviceClass id = DeviceClass.TrackingReference ∨ O.deviceClass id = DeviceClass.HMD then []
        else
          [Event.setWorldFromDriverRotationOffset id (VRRotationQuat ctx.calibratedRotation),
           Event.setWorldFromDriverTranslationOffset id (VRTranslationVec ctx.calibratedTranslation),
           Event.enableDeviceOffsets id true])

/-- Embeds `CollectSample`, lines 222-251: read both device poses from the current
snapshot; if either is not tracking, log the failures, log the abort, move
the state to `None` and return an invalid sample; otherwise return a valid
sample of the two poses. -/
def CollectSample (poses : ℤ → TrackedDevicePose) (ctx : CalibrationContext) :
    Sample × CalibrationContext :=
  let reference := poses ctx.referenceID
  let target := poses ctx.targetID
  let refMsgs : List Msg :=
    if reference.bPoseIsValid = false then [Msg.referenceNotTracking] else []
  let targetMsgs : List Msg :=
    if target.bPoseIsValid = false then [Msg.targetNotTracking] else []
  if reference.bPoseIsValid && target.bPoseIsValid then
    (⟨reference.mDeviceToAbsoluteTracking, target.mDeviceToAbsoluteTracking, true⟩, ctx)
  else
    (⟨defaultPose, defaultPose, false⟩,
     { ctx with
       messages := ctx.messages ++ refMsgs ++ targetMsgs ++ [Msg.abortingCalibration]
       state := CalibrationState.None })

/-- The delta-sample collection loop of `CalibrateRotation`, lines 120-130:
for every `i` and every `j < i`, keep `DeltaRotationSamples(samples[i],
samples[j])` when it is valid. -/
noncomputable def deltasOf (samples : List Sample) : List DSample :=
  (List.range samples.length).flatMap (fun i =>
    (List.range i).filterMap (fun j =>
      let delta := DeltaRotationSamples (samples.getD i default) (samples.getD j default)
      if delta.valid then some delta else none))

/-- Reference-axis centroid of `CalibrateRotation`, lines 138-150: the
accumulated sum divided by the delta count (the division is unguarded for
an empty delta set; real-valued division by zero renders as 0 here where
IEEE arithmetic yields NaN). -/
noncomputable def refCentroidOf (samples : List Sample) : V3 :=
  fun k => ((deltasOf samples).map (fun d => d.ref k)).sum / ((deltasOf samples).length : ℝ)

/-- Target-axis centroid of `CalibrateRotation`, lines 138-150. -/
noncomputable def targetCentroidOf (samples : List Sample) : V3 :=
  fun k => ((deltasOf samples).map (fun d => d.target k)).sum / ((deltasOf samples).length : ℝ)

/-- The cross-covariance `refPoints.transpose() * targetPoints` of the
centered axis sets, lines 152-158. -/
noncomputable def crossCovOf (samples : List Sample) : M3 :=
  fun k l =>
    ((deltasOf samples).map
      (fun d => (d.ref k - refCentroidOf samples k) * (d.target l - targetCentroidOf samples l))).sum

/-- The SVD/flip/transpose/Euler pipeline of `CalibrateRotation`, lines
160-172, applied to a cross-covariance matrix: decompose, flip the third
axis when `U * Vᵀ` has negative determinant, compose `V * i * Uᵀ`,
transpose in place, and convert to Euler degrees with axis order Z, Y, X. -/
noncomputable def kabschEulerDegrees (O : Oracles) (crossCV : M3) : V3 :=
  let svd := O.svd crossCV
  let i : M3 :=
    if (svd.U * svd.V.transpose).det < 0 then Matrix.diagonal ![1, 1, -1] else 1
  let rot := (svd.V * i * svd.U.transpose).transpose
  fun k => O.eulerAngles210 rot k * (180 / Real.pi)

/-- Embeds `CalibrateRotation`, lines 118-177: collect the valid delta samples,
log their count, run the Kabsch pipeline on the centered cross-covariance,
log and return the Euler angles in degrees. -/
noncomputable def CalibrateRotation (O : Oracles) (samples : List Sample) : V3 × List Msg :=
  let euler := kabschEulerDegrees O (crossCovOf samples)
  (euler,
   [Msg.gotSamples samples.length (deltasOf samples).length,
    Msg.calibratedRotationIs euler])

/-- The equation-building loop of `CalibrateTranslation`, lines 181-199:
for every `i` and every `j < i`, one (constant, coefficient-matrix) block
from the reference device's perspective and one from the target's. -/
def transDeltasOf (samples : List Sample) : List (V3 × M3) :=
  (List.range samples.length).flatMap (fun i =>
    (List.range i).flatMap (fun j =>
      let si := samples.getD i default
      let sj := samples.getD j default
      let QAi := si.ref.rot.transpose
      let QAj := sj.ref.rot.transpose
      let dQA := QAj - QAi
      let CA := QAj.mulVec (sj.ref.trans - sj.target.trans)
                  - QAi.mulVec (si.ref.trans - si.target.trans)
      let QBi := si.target.rot.transpose
      let QBj := sj.target.rot.transpose
      let dQB := QBj - QBi
      let CB := QBj.mulVec (sj.ref.trans - sj.target.trans)
                  - QBi.mulVec (si.ref.trans - si.target.trans)
      [(CA, dQA), (CB, dQB)]))

/-- The stacked constants vector of `CalibrateTranslation`, lines 201-211:
three scalar equations per delta block. -/
def constantsOf (samples : List Sample) : List ℝ :=
  (transDeltasOf samples).flatMap (fun d => [d.1 0, d.1 1, d.1 2])

/-- The stacked coefficient rows of `CalibrateTranslation`, lines 201-211. -/
def coefficientsOf (samples : List Sample) : List V3 :=
  (transDeltasOf samples).flatMap (fun d => [d.2 0, d.2 1, d.2 2])

/-- Embeds `CalibrateTranslation`, lines 179-220: solve the stacked system by the
SVD-based least-squares solver and scale the solution by 100 into
centimeters. -/
noncomputable def CalibrateTranslation (O : Oracles) (samples : List Sample) : V3 × List Msg :=
  let trans := O.lsqSolve (coefficientsOf samples) (constantsOf samples)
  let transcm : V3 := fun k => trans k * 100
  (transcm, [Msg.calibratedTranslationIs transcm])

/-- Sample count per calibration phase, line 433. -/
def totalSamples : ℕ := 100

/-- The `Begin` branch of `CalibrationTick`, lines 387-424: validate that
both device ids are set and tracking; on failure log the missing/untracked
devices, log the abort and return to `None`; on success reset the target
device's offsets and move to `Rotation`. -/
noncomputable def tickBegin (poses : ℤ → TrackedDevicePose) (ctx : CalibrationContext) :
    CalibrationContext × List Event :=
  let refMsgs : List Msg :=
    if ctx.referenceID = -1 then [Msg.missingReference]
    else if (poses ctx.referenceID).bPoseIsValid = false then [Msg.referenceNotTracking]
    else []
  let targetMsgs : List Msg :=
    if ctx.targetID = -1 then [Msg.missingTarget]
    else if (poses ctx.targetID).bPoseIsValid = false then [Msg.targetNotTracking]
    else []
  if refMsgs = [] ∧ targetMsgs = [] then
    ({ ctx with
       state := CalibrationState.Rotation
       wantedUpdateInterval := 0.0
       messages := ctx.messages ++ [Msg.startingCalibration ctx.referenceID ctx.targetID] },
     ResetAndDisableOffsets ctx.targetID)
  else
    ({ ctx with
       messages := ctx.messages ++ refMsgs ++ targetMsgs ++ [Msg.abortingCalibration]
       state := CalibrationState.None },
     [])

/-- The sampling branch of `CalibrationTick`, lines 426-464 (reached in the
`Rotation` and `Translation` states): collect one sample, abort on an
invalid one, push a valid one, and when the batch reaches `totalSamples`
run the calibrator of the current phase, push the resulting offset to the
actuator, clear the batch and advance the state. -/
noncomputable def tickSampling (O : Oracles) (poses : ℤ → TrackedDevicePose)
    (ctx : CalibrationContext) : CalibrationContext × List Event :=
  let collected := CollectSample poses ctx
  let sample := collected.1
  let ctx1 := collected.2
  if sample.valid = false then (ctx1, [])
  else
    let ctx2 := { ctx1 with messages := ctx1.messages ++ [Msg.dot] }
    let samples := ctx2.samples ++ [sample]
    if samples.length = totalSamples then
      let ctx3 := { ctx2 with messages := ctx2.messages ++ [Msg.newline] }
      if ctx3.state = CalibrationState.Rotation then
        let cr := CalibrateRotation O samples
        ({ ctx3 with
           calibratedRotation := cr.1
           messages := ctx3.messages ++ cr.2
           state := CalibrationState.Translation
           samples := [] },
         [Event.setWorldFromDriverRotationOffset ctx3.targetID (VRRotationQuat cr.1),
          Event.enableDeviceOffsets ctx3.targetID true])
      else if ctx3.state = CalibrationState.Translation then
        let ct := CalibrateTranslation O samples
        ({ ctx3 with
           calibratedTranslation := ct.1
           messages := ctx3.messages ++ ct.2 ++ [Msg.finishedCalibration]
           state := CalibrationState.None
           samples := [] },
         [Event.setWorldFromDriverTranslationOffset ctx3.targetID (VRTranslationVec ct.1),
          Event.saveProfile ctx3.calibratedRotation ct.1])
      else
        ({ ctx3 with samples := [] }, [])
    else
      ({ ctx2 with samples := samples }, [])

/-- Embeds `CalibrationTick`, lines 349-465: return immediately when the VR system
is unavailable or fewer than 0.05 seconds have passed since the last
processed tick; otherwise record the tick time, refresh the pose snapshot
(the `poses` argument) and dispatch on the current state. -/
noncomputable def CalibrationTick (O : Oracles) (vrOk : Bool) (time : ℝ)
    (poses : ℤ → TrackedDevicePose) (ctx : CalibrationContext) :
    CalibrationContext × List Event :=
  if vrOk = false then (ctx, [])
  else if time - ctx.timeLastTick < 0.05 then (ctx, [])
  else
    let ctx1 := { ctx with timeLastTick := time }
    match ctx.state with
    | CalibrationState.None =>
        let ctx2 := { ctx1 with wantedUpdateInterval := 1.0 }
        if ctx2.validProfile = false then (ctx2, [])
        else if (2.5 : ℝ) ≤ time - ctx2.timeLastScan then
          ({ ctx2 with timeLastScan := time }, ScanAndApplyProfile O ctx2)
        else (ctx2, [])
    | CalibrationState.Editing =>
        let ctx2 := { ctx1 with wantedUpdateInterval := 0.0 }
        if ctx2.validProfile = false then (ctx2, [])
        else (ctx2, ScanAndApplyProfile O ctx2)
    | CalibrationState.Begin => tickBegin poses ctx1
    | CalibrationState.Rotation => tickSampling O poses ctx1
    | CalibrationState.Translation => tickSampling O poses ctx1

/-- Repeated ticks: fold `CalibrationTick` over a list of (time, pose
snapshot) inputs, discarding the emitted events. -/
noncomputable def runTicks (O : Oracles) (vrOk : Bool)
    (steps : List (ℝ × (ℤ → TrackedDevicePose))) (ctx : CalibrationContext) :
    CalibrationContext :=
  steps.foldl (fun c s => (CalibrationTick O vrOk s.1 s.2 c).1) ctx

/-- The context at process start: idle, no devices selected, empty batch. -/
def initialContext : CalibrationContext :=
  { state := CalibrationState.None
    referenceID := -1
    targetID := -1
    calibratedRotation := fun _ => 0
    calibratedTranslation := fun _ => 0
    targetTrackingSystem := ""
    validProfile := false
    timeLastTick := 0
    timeLastScan := 0
    wantedUpdateInterval := 0
    messages := []
    samples := [] }

/-- Contexts reachable by the core's own operations: ticks and
`StartCalibration`, plus arbitrary external writes to every field except
the in-progress sample batch (device selection, profile edits, external
state resets — the UI writes directly into the shared context but never
touches the function-static batch). -/
inductive Reachable : CalibrationContext → Prop where
  | init : Reachable initialContext
  | tick (O : Oracles) (vrOk : Bool) (time : ℝ) (poses : ℤ → TrackedDevicePose)
      {c : CalibrationContext} :
      Reachable c → Reachable (CalibrationTick O vrOk time poses c).1
  | start {c : CalibrationContext} : Reachable c → Reachable (StartCalibration c)
  | external {c : CalibrationContext} (c' : CalibrationContext) :
      Reachable c → c'.samples = c.samples → Reachable c'

/-- Rotation by 90° about the z axis: a concrete input for witnesses. -/
def Rz90 : M3 := !![0,-1,0; 1,0,0; 0,0,1]

/-- Concrete valid sample whose both poses carry `Rz90`. -/
def sampleA : Sample := ⟨⟨Rz90, fun _ => 0⟩, ⟨Rz90, fun _ => 0⟩, true⟩

/-- Concrete valid sample whose both poses carry the identity rotation. -/
def sampleB : Sample := ⟨⟨1, fun _ => 0⟩, ⟨1, fun _ => 0⟩, true⟩

/-- A concrete oracle assignment for witnesses; its singular values are in
Eigen's decreasing order. -/
def oracle0 : Oracles :=
  { svd := fun _ => ⟨1, ![3, 2, 1], 1⟩
    eulerAngles210 := fun _ => fun _ => 0
    lsqSolve := fun _ _ => fun _ => 0
    deviceClass := fun _ => DeviceClass.Invalid
    trackingSystemName := fun _ => none }

/-- A pose snapshot in which every device tracks at the identity pose. -/
def posesTracking : ℤ → TrackedDevicePose :=
  fun _ => ⟨true, defaultPose⟩

/-- A pose snapshot in which no device is tracking. -/
def posesLost : ℤ → TrackedDevicePose :=
  fun _ => ⟨false, defaultPose⟩

lemma tick_not_vrOk (O : Oracles) (time : ℝ) (poses : ℤ → TrackedDevicePose)
    (ctx : CalibrationContext) :
    CalibrationTick O false time poses ctx = (ctx, []) := by
  unfold CalibrationTick
  rw [if_pos rfl]

lemma tick_debounced (O : Oracles) (time : ℝ) (poses : ℤ → TrackedDevicePose)
    (ctx : CalibrationContext) (h : time - ctx.timeLastTick < 0.05) :
    CalibrationTick O true time poses ctx = (ctx, []) := by
  unfold CalibrationTick
  rw [if_neg (by simp), if_pos h]

lemma tick_begin_eq (O : Oracles) (time : ℝ) (poses : ℤ → TrackedDevicePose)
    (ctx : CalibrationContext) (h : ¬ time - ctx.timeLastTick < 0.05)
    (hs : ctx.state = CalibrationState.Begin) :
    CalibrationTick O true time poses ctx = tickBegin poses { ctx with timeLastTick := time } := by
  unfold CalibrationTick
  rw [if_neg (by simp), if_neg h, hs]

lemma tick_rotation_eq (O : Oracles) (time : ℝ) (poses : ℤ → TrackedDevicePose)
    (ctx : CalibrationContext) (h : ¬ time - ctx.timeLastTick < 0.05)
    (hs : ctx.state = CalibrationState.Rotation) :
    CalibrationTick O true time poses ctx = tickSampling O poses { ctx with timeLastTick := time } := by
  unfold CalibrationTick
  rw [if_neg (by simp), if_neg h, hs]

lemma tick_translation_eq (O : Oracles) (time : ℝ) (poses : ℤ → TrackedDevicePose)
    (ctx : CalibrationContext) (h : ¬ time - ctx.timeLastTick < 0.05)
    (hs : ctx.state = CalibrationState.Translation) :
    CalibrationTick O true time poses ctx = tickSampling O poses { ctx with timeLastTick := time } := by
  unfold CalibrationTick
  rw [if_neg (by simp), if_neg h, hs]

lemma CollectSample_samples (poses : ℤ → TrackedDevicePose) (ctx : CalibrationContext) :
    ((CollectSample poses ctx).2).samples = ctx.samples := by
  simp only [CollectSample]
  split <;> rfl

lemma CollectSample_timeLastTick (poses : ℤ → TrackedDevicePose) (ctx : CalibrationContext) :
    ((CollectSample poses ctx).2).timeLastTick = ctx.timeLastTick := by
  simp only [CollectSample]
  split <;> rfl

lemma CollectSample_valid_true (poses : ℤ → TrackedDevicePose) (ctx : CalibrationContext)
    (h : ((CollectSample poses ctx).1).valid = true) :
    CollectSample poses ctx =
      (⟨(poses ctx.referenceID).mDeviceToAbsoluteTracking,
        (poses ctx.targetID).mDeviceToAbsoluteTracking, true⟩, ctx) := by
  by_cases hok : ((poses ctx.referenceID).bPoseIsValid && (poses ctx.targetID).bPoseIsValid) = true
  · simp only [CollectSample]
    rw [if_pos hok]
  · exfalso
    simp only [CollectSample] at h
    rw [if_neg hok] at h
    simp at h

lemma CollectSample_invalid (poses : ℤ → TrackedDevicePose) (ctx : CalibrationContext)
    (h : ((CollectSample poses ctx).1).valid = false) :
    ((CollectSample poses ctx).2).state = CalibrationState.None := by
  by_cases hok : ((poses ctx.referenceID).bPoseIsValid && (poses ctx.targetID).bPoseIsValid) = true
  · exfalso
    simp only [CollectSample] at h
    rw [if_pos hok] at h
    simp at h
  · simp only [CollectSample]
    rw [if_neg hok]

lemma tick_none_eq (O : Oracles) (time : ℝ) (poses : ℤ → TrackedDevicePose)
    (ctx : CalibrationContext) (h : ¬ time - ctx.timeLastTick < 0.05)
    (hs : ctx.state = CalibrationState.None) :
    CalibrationTick O true time poses ctx =
      (if ctx.validProfile = false then
        ({ ctx with timeLastTick := time, wantedUpdateInterval := 1.0 }, [])
       else if (2.5 : ℝ) ≤ time - ctx.timeLastScan then
        ({ ctx with timeLastTick := time, wantedUpdateInterval := 1.0, timeLastScan := time },
         ScanAndApplyProfile O { ctx with timeLastTick := time, wantedUpdateInterval := 1.0 })
       else ({ ctx with timeLastTick := time, wantedUpdateInterval := 1.0 }, [])) := by
  unfold CalibrationTick
  rw [if_neg (by simp), if_neg h, hs]

lemma tick_editing_eq (O : Oracles) (time : ℝ) (poses : ℤ → TrackedDevicePose)
    (ctx : CalibrationContext) (h : ¬ time - ctx.timeLastTick < 0.05)
    (hs : ctx.state = CalibrationState.Editing) :
    CalibrationTick O true time poses ctx =
      (if ctx.validProfile = false then
        ({ ctx with timeLastTick := time, wantedUpdateInterval := 0.0 }, [])
       else
        ({ ctx with timeLastTick := time, wantedUpdateInterval := 0.0 },
         ScanAndApplyProfile O { ctx with timeLastTick := time, wantedUpdateInterval := 0.0 })) := by
  unfold CalibrationTick
  rw [if_neg (by simp), if_neg h, hs]

lemma tick_none_inv (O : Oracles) (vrOk : Bool) (time : ℝ) (poses : ℤ → TrackedDevicePose)
    (ctx : CalibrationContext) (hs : ctx.state = CalibrationState.None) :
    ((CalibrationTick O vrOk time poses ctx).1).state = CalibrationState.None ∧
    ((CalibrationTick O vrOk time poses ctx).1).samples = ctx.samples := by
  cases vrOk
  · rw [tick_not_vrOk]; exact ⟨hs, rfl⟩
  · by_cases h : time - ctx.timeLastTick < 0.05
    · rw [tick_debounced O time poses ctx h]; exact ⟨hs, rfl⟩
    · rw [tick_none_eq O time poses ctx h hs]
      split
      · exact ⟨hs, rfl⟩
      · split
        · exact ⟨hs, rfl⟩
        · exact ⟨hs, rfl⟩

lemma tick_editing_inv (O : Oracles) (vrOk : Bool) (time : ℝ) (poses : ℤ → TrackedDevicePose)
    (ctx : CalibrationContext) (hs : ctx.state = CalibrationState.Editing) :
    ((CalibrationTick O vrOk time poses ctx).1).state = CalibrationState.Editing ∧
    ((CalibrationTick O vrOk time poses ctx).1).samples = ctx.samples := by
  cases vrOk
  · rw [tick_not_vrOk]; exact ⟨hs, rfl⟩
  · by_cases h : time - ctx.timeLastTick < 0.05
    · rw [tick_debounced O time poses ctx h]; exact ⟨hs, rfl⟩
    · rw [tick_editing_eq O time poses ctx h hs]
      split
      · exact ⟨hs, rfl⟩
      · exact ⟨hs, rfl⟩

lemma tickBegin_samples (poses : ℤ → TrackedDevicePose) (ctx : CalibrationContext) :
    ((tickBegin poses ctx).1).samples = ctx.samples := by
  simp only [tickBegin]
  split_ifs <;> rfl

lemma tickSampling_samples (O : Oracles) (poses : ℤ → TrackedDevicePose)
    (ctx : CalibrationContext) :
    ((tickSampling O poses ctx).1).samples = ctx.samples ∨
    (∃ s : Sample, s.valid = true ∧
      ((tickSampling O poses ctx).1).samples = ctx.samples ++ [s]) ∨
    ((tickSampling O poses ctx).1).samples = [] := by
  simp only [tickSampling]
  split_ifs with h1 h2 h3 h4
  · left
    exact CollectSample_samples poses ctx
  · right; right; rfl
  · right; right; rfl
  · right; right; rfl
  · right; left
    refine ⟨(CollectSample poses ctx).1, ?_, ?_⟩
    · cases hv : ((CollectSample poses ctx).1).valid
      · exact absurd hv h1
      · rfl
    · simp [CollectSample_samples poses ctx]

lemma tickSampling_timeLastTick (O : Oracles) (poses : ℤ → TrackedDevicePose)
    (ctx : CalibrationContext) :
    ((tickSampling O poses ctx).1).timeLastTick = ctx.timeLastTick := by
  simp only [tickSampling]
  split_ifs <;> simp [CollectSample_timeLastTick]

lemma tick_processed_timeLastTick (O : Oracles) (time : ℝ) (poses : ℤ → TrackedDevicePose)
    (ctx : CalibrationContext) (h : ¬ time - ctx.timeLastTick < 0.05) :
    ((CalibrationTick O true time poses ctx).1).timeLastTick = time := by
  cases hs : ctx.state
  · rw [tick_none_eq O time poses ctx h hs]; split_ifs <;> rfl
  · rw [tick_editing_eq O time poses ctx h hs]; split_ifs <;> rfl
  · rw [tick_begin_eq O time poses ctx h hs]
    simp only [tickBegin]
    split_ifs <;> rfl
  · rw [tick_rotation_eq O time poses ctx h hs, tickSampling_timeLastTick]
  · rw [tick_translation_eq O time poses ctx h hs, tickSampling_timeLastTick]

/-- Claim C3: A tick strictly less than 0.05 s after the previously processed
tick is a no-op that changes nothing and emits nothing; a tick at least
0.05 s after the previously processed tick (in particular 60 ms after) is
processed.  Two ticks 10 ms apart produce one advancement, two ticks 60 ms
apart advance twice. -/
theorem C3_tick_debounce (O : Oracles) (time1 time2 : ℝ)
    (poses1 poses2 : ℤ → TrackedDevicePose) (ctx : CalibrationContext)
    (h1 : 0.05 ≤ time1 - ctx.timeLastTick) :
    ((CalibrationTick O true time1 poses1 ctx).1).timeLastTick = time1 ∧
    (time2 - time1 < 0.05 →
      CalibrationTick O true time2 poses2 (CalibrationTick O true time1 poses1 ctx).1 =
        ((CalibrationTick O true time1 poses1 ctx).1, [])) ∧
    (0.05 ≤ time2 - time1 →
      ((CalibrationTick O true time2 poses2
          (CalibrationTick O true time1 poses1 ctx).1).1).timeLastTick = time2) := by
  have h1' : ¬ time1 - ctx.timeLastTick < 0.05 := not_lt.mpr h1
  have ht1 := tick_processed_timeLastTick O time1 poses1 ctx h1'
  refine ⟨ht1, ?_, ?_⟩
  · intro h2
    exact tick_debounced O time2 poses2 _ (by rw [ht1]; exact h2)
  · intro h2
    exact tick_processed_timeLastTick O time2 poses2 _ (by rw [ht1]; exact not_lt.mpr h2)

/-- Witness for C3: from the initial context, a tick at `t = 1` is
processed, and a second tick 10 ms later is a no-op. -/
theorem C3_tick_debounce_witness :
    (0.05 : ℝ) ≤ 1 - initialContext.timeLastTick ∧
    (((CalibrationTick oracle0 true 1 posesTracking initialContext).1).timeLastTick = 1 ∧
    ((1.01 : ℝ) - 1 < 0.05 →
      CalibrationTick oracle0 true 1.01 posesTracking
          (CalibrationTick oracle0 true 1 posesTracking initialContext).1 =
        ((CalibrationTick oracle0 true 1 posesTracking initialContext).1, [])) ∧
    ((0.05 : ℝ) ≤ 1.01 - 1 →
      ((CalibrationTick oracle0 true 1.01 posesTracking
          (CalibrationTick oracle0 true 1 posesTracking initialContext).1).1).timeLastTick = 1.01)) :=
  ⟨by norm_num [initialContext],
   C3_tick_debounce oracle0 1 1.01 posesTracking posesTracking initialContext
     (by norm_num [initialContext])⟩

/-- Claim C9: `StartCalibration` unconditionally sets the state to `Begin`,
zeroes the wanted-update-interval hint and clears the message buffer, and
changes nothing else; no precondition on the current state is checked, so
invoking it mid-run restarts the procedure. -/
theorem C9_start_calibration_unconditional (ctx : CalibrationContext) :
    (StartCalibration ctx).state = CalibrationState.Begin ∧
    (StartCalibration ctx).wantedUpdateInterval = 0.0 ∧
    (StartCalibration ctx).messages = [] ∧
    (StartCalibration ctx).referenceID = ctx.referenceID ∧
    (StartCalibration ctx).targetID = ctx.targetID ∧
    (StartCalibration ctx).calibratedRotation = ctx.calibratedRotation ∧
    (StartCalibration ctx).calibratedTranslation = ctx.calibratedTranslation ∧
    (StartCalibration ctx).targetTrackingSystem = ctx.targetTrackingSystem ∧
    (StartCalibration ctx).validProfile = ctx.validProfile ∧
    (StartCalibration ctx).timeLastTick = ctx.timeLastTick ∧
    (StartCalibration ctx).samples = ctx.samples :=
  ⟨rfl, rfl, rfl, rfl, rfl, rfl, rfl, rfl, rfl, rfl, rfl⟩

lemma tick_samples_validity (O : Oracles) (vrOk : Bool) (time : ℝ)
    (poses : ℤ → TrackedDevicePose) (ctx : CalibrationContext)
    (hinv : ∀ s ∈ ctx.samples, s.valid = true) :
    ∀ s ∈ ((CalibrationTick O vrOk time poses ctx).1).samples, s.valid = true := by
  cases vrOk
  · rw [tick_not_vrOk]; exact hinv
  · by_cases h : time - ctx.timeLastTick < 0.05
    · rw [tick_debounced O time poses ctx h]; exact hinv
    · cases hs : ctx.state
      · rw [(tick_none_inv O true time poses ctx hs).2]; exact hinv
      · rw [(tick_editing_inv O true time poses ctx hs).2]; exact hinv
      · rw [tick_begin_eq O time poses ctx h hs, tickBegin_samples]; exact hinv
      · rw [tick_rotation_eq O time poses ctx h hs]
        rcases tickSampling_samples O poses { ctx with timeLastTick := time } with
          hcase | ⟨s, hsv, hcase⟩ | hcase
        · rw [hcase]; exact hinv
        · rw [hcase]
          intro x hx
          rcases List.mem_append.mp hx with hx | hx
          · exact hinv x hx
          · rw [List.mem_singleton.mp hx]; exact hsv
        · rw [hcase]
          intro x hx
          exact absurd hx (List.not_mem_nil x)
      · rw [tick_translation_eq O time poses ctx h hs]
        rcases tickSampling_samples O poses { ctx with timeLastTick := time } with
          hcase | ⟨s, hsv, hcase⟩ | hcase
        · rw [hcase]; exact hinv
        · rw [hcase]
          intro x hx
          rcases List.mem_append.mp hx with hx | hx
          · exact hinv x hx
          · rw [List.mem_singleton.mp hx]; exact hsv
        · rw [hcase]
          intro x hx
          exact absurd hx (List.not_mem_nil x)

/-- Claim C8: In every reachable context, every sample stored in the
in-progress accumulator has `valid = true`: the tick returns before the
append whenever the collected sample is invalid. -/
theorem C8_batch_validity_invariant (c : CalibrationContext) (h : Reachable c) :
    ∀ s ∈ c.samples, s.valid = true := by
  induction h with
  | init =>
      intro s hs
      exact absurd hs (List.not_mem_nil s)
  | tick O vrOk time poses hr ih =>
      exact tick_samples_validity O vrOk time poses _ ih
  | start hr ih => exact ih
  | external c' hr hsamp ih =>
      intro s hs
      rw [hsamp] at hs
      exact ih s hs

/-- A context in the `Rotation` state with devices 0 and 1 selected. -/
def ctxRotationReady : CalibrationContext :=
  { initialContext with
    state := CalibrationState.Rotation
    referenceID := 0
    targetID := 1 }

/-- The context after one processed sampling tick from `ctxRotationReady`. -/
noncomputable def ctxAfterSample : CalibrationContext :=
  (CalibrationTick oracle0 true 1 posesTracking ctxRotationReady).1

lemma ctxAfterSample_samples :
    ctxAfterSample.samples = [⟨defaultPose, defaultPose, true⟩] := by
  unfold ctxAfterSample
  rw [tick_rotation_eq oracle0 1 posesTracking ctxRotationReady
    (by norm_num [ctxRotationReady, initialContext]) rfl]
  rfl

/-- Witness for C8: the sample admitted into the batch by a concrete
reachable sampling tick is valid. -/
theorem C8_batch_validity_invariant_witness :
    (ctxAfterSample.samples.getD 0 default).valid = true :=
  C8_batch_validity_invariant ctxAfterSample
    (Reachable.tick oracle0 true 1 posesTracking
      (Reachable.external ctxRotationReady Reachable.init rfl))
    (ctxAfterSample.samples.getD 0 default)
    (by rw [ctxAfterSample_samples]; simp)

lemma runTicks_none (O : Oracles) (vrOk : Bool)
    (steps : List (ℝ × (ℤ → TrackedDevicePose))) (c : CalibrationContext)
    (hs : c.state = CalibrationState.None) :
    (runTicks O vrOk steps c).state = CalibrationState.None := by
  induction steps generalizing c with
  | nil => exact hs
  | cons p rest ih => exact ih _ ((tick_none_inv O vrOk p.1 p.2 c hs).1)

/-- Claim C4: After `StartCalibration`, the next processed tick in the
`Begin` state: with the reference or target unset (or untracked) it logs a
message identifying the missing/untracked device, logs the abort, moves to
`None` and can never reach `Rotation` by further ticks alone; with both
devices set and tracked it resets the target device's offsets and moves to
`Rotation`. -/
theorem C4_begin_validation (O : Oracles) (time : ℝ) (poses : ℤ → TrackedDevicePose)
    (ctx : CalibrationContext)
    (htime : ¬ time - ctx.timeLastTick < 0.05) :
    (ctx.referenceID = -1 →
      ((CalibrationTick O true time poses (StartCalibration ctx)).1).state = CalibrationState.None ∧
      Msg.missingReference ∈ ((CalibrationTick O true time poses (StartCalibration ctx)).1).messages ∧
      Msg.abortingCalibration ∈ ((CalibrationTick O true time poses (StartCalibration ctx)).1).messages) ∧
    (ctx.targetID = -1 →
      ((CalibrationTick O true time poses (StartCalibration ctx)).1).state = CalibrationState.None ∧
      Msg.missingTarget ∈ ((CalibrationTick O true time poses (StartCalibration ctx)).1).messages) ∧
    (ctx.referenceID ≠ -1 → (poses ctx.referenceID).bPoseIsValid = false →
      ((CalibrationTick O true time poses (StartCalibration ctx)).1).state = CalibrationState.None ∧
      Msg.referenceNotTracking ∈ ((CalibrationTick O true time poses (StartCalibration ctx)).1).messages) ∧
    (ctx.targetID ≠ -1 → (poses ctx.targetID).bPoseIsValid = false →
      ((CalibrationTick O true time poses (StartCalibration ctx)).1).state = CalibrationState.None ∧
      Msg.targetNotTracking ∈ ((CalibrationTick O true time poses (StartCalibration ctx)).1).messages) ∧
    (((CalibrationTick O true time poses (StartCalibration ctx)).1).state = CalibrationState.None →
      ∀ (O2 : Oracles) (vrOk2 : Bool) (steps : List (ℝ × (ℤ → TrackedDevicePose))),
        (runTicks O2 vrOk2 steps
          (CalibrationTick O true time poses (StartCalibration ctx)).1).state ≠
          CalibrationState.Rotation) ∧
    (ctx.referenceID ≠ -1 → ctx.targetID ≠ -1 →
      (poses ctx.referenceID).bPoseIsValid = true → (poses ctx.targetID).bPoseIsValid = true →
      ((CalibrationTick O true time poses (StartCalibration ctx)).1).state = CalibrationState.Rotation ∧
      (CalibrationTick O true time poses (StartCalibration ctx)).2 =
        ResetAndDisableOffsets ctx.targetID) := by
  have hbegin : (StartCalibration ctx).state = CalibrationState.Begin := rfl
  have htime' : ¬ time - (StartCalibration ctx).timeLastTick < 0.05 := htime
  rw [tick_begin_eq O time poses (StartCalibration ctx) htime' hbegin]
  refine ⟨?_, ?_, ?_, ?_, ?_, ?_⟩
  · intro h
    simp [tickBegin, StartCalibration, h]
  · intro h
    simp [tickBegin, StartCalibration, h]
  · intro h1 h2
    simp [tickBegin, StartCalibration, h1, h2]
  · intro h1 h2
    simp [tickBegin, StartCalibration, h1, h2]
  · intro h0 O2 vrOk2 steps
    rw [runTicks_none O2 vrOk2 steps _ h0]
    simp
  · intro h1 h2 h3 h4
    simp [tickBegin, StartCalibration, h1, h2, h3, h4]

/-- Witness for C4: from the initial context (no devices selected), starting
and ticking aborts to idle and logs the missing reference device. -/
theorem C4_begin_validation_witness :
    ((CalibrationTick oracle0 true 1 posesTracking (StartCalibration initialContext)).1).state
      = CalibrationState.None ∧
    Msg.missingReference ∈
      ((CalibrationTick oracle0 true 1 posesTracking (StartCalibration initialContext)).1).messages :=
  let h := C4_begin_validation oracle0 1 posesTracking initialContext
    (by norm_num [initialContext])
  ⟨(h.1 rfl).1, (h.1 rfl).2.1⟩

lemma CollectSample_ok (poses : ℤ → TrackedDevicePose) (ctx : CalibrationContext)
    (h : ((poses ctx.referenceID).bPoseIsValid && (poses ctx.targetID).bPoseIsValid) = true) :
    CollectSample poses ctx =
      (⟨(poses ctx.referenceID).mDeviceToAbsoluteTracking,
        (poses ctx.targetID).mDeviceToAbsoluteTracking, true⟩, ctx) := by
  simp only [CollectSample]
  rw [if_pos h]

lemma CollectSample_fail_valid (poses : ℤ → TrackedDevicePose) (ctx : CalibrationContext)
    (h : ((poses ctx.referenceID).bPoseIsValid && (poses ctx.targetID).bPoseIsValid) = false) :
    ((CollectSample poses ctx).1).valid = false := by
  simp only [CollectSample]
  rw [if_neg (by simp [h])]

lemma CollectSample_ids (poses : ℤ → TrackedDevicePose) (ctx : CalibrationContext) :
    ((CollectSample poses ctx).2).referenceID = ctx.referenceID ∧
    ((CollectSample poses ctx).2).targetID = ctx.targetID := by
  simp only [CollectSample]
  split <;> exact ⟨rfl, rfl⟩

lemma tickSampling_fail (O : Oracles) (poses : ℤ → TrackedDevicePose)
    (ctx : CalibrationContext)
    (h : ((poses ctx.referenceID).bPoseIsValid && (poses ctx.targetID).bPoseIsValid) = false) :
    ((tickSampling O poses ctx).1).state = CalibrationState.None ∧
    ((tickSampling O poses ctx).1).samples = ctx.samples := by
  have hv : ((CollectSample poses ctx).1).valid = false := CollectSample_fail_valid poses ctx h
  simp only [tickSampling]
  rw [if_pos hv]
  exact ⟨CollectSample_invalid poses ctx hv, CollectSample_samples poses ctx⟩

lemma tickSampling_ids (O : Oracles) (poses : ℤ → TrackedDevicePose)
    (ctx : CalibrationContext) :
    ((tickSampling O poses ctx).1).referenceID = ctx.referenceID ∧
    ((tickSampling O poses ctx).1).targetID = ctx.targetID := by
  simp only [tickSampling]
  split_ifs <;> simp [CollectSample_ids]

lemma tick_ids (O : Oracles) (vrOk : Bool) (time : ℝ) (poses : ℤ → TrackedDevicePose)
    (ctx : CalibrationContext) :
    ((CalibrationTick O vrOk time poses ctx).1).referenceID = ctx.referenceID ∧
    ((CalibrationTick O vrOk time poses ctx).1).targetID = ctx.targetID := by
  cases vrOk
  · rw [tick_not_vrOk]; exact ⟨rfl, rfl⟩
  · by_cases h : time - ctx.timeLastTick < 0.05
    · rw [tick_debounced O time poses ctx h]; exact ⟨rfl, rfl⟩
    · cases hs : ctx.state
      · rw [tick_none_eq O time poses ctx h hs]; split_ifs <;> exact ⟨rfl, rfl⟩
      · rw [tick_editing_eq O time poses ctx h hs]; split_ifs <;> exact ⟨rfl, rfl⟩
      · rw [tick_begin_eq O time poses ctx h hs]
        simp only [tickBegin]
        split_ifs <;> exact ⟨rfl, rfl⟩
      · rw [tick_rotation_eq O time poses ctx h hs]
        exact tickSampling_ids O poses _
      · rw [tick_translation_eq O time poses ctx h hs]
        exact tickSampling_ids O poses _

/-- Claim C5: In the `Rotation` state, a processed tick whose valid sample
makes the accumulator reach exactly 100 runs the rotation calibrator on the
batch, pushes the resulting rotation offset to the target device, enables
offset application, clears the accumulator and advances to `Translation`;
while the accumulator stays below 100 no calibrator runs, nothing is
emitted, and the state is unchanged. -/
theorem C5_rotation_batch_completion (O : Oracles) (time : ℝ)
    (poses : ℤ → TrackedDevicePose) (ctx : CalibrationContext)
    (htime : ¬ time - ctx.timeLastTick < 0.05)
    (hstate : ctx.state = CalibrationState.Rotation)
    (href : (poses ctx.referenceID).bPoseIsValid = true)
    (htgt : (poses ctx.targetID).bPoseIsValid = true) :
    (ctx.samples.length = 99 →
      ((CalibrationTick O true time poses ctx).1).state = CalibrationState.Translation ∧
      ((CalibrationTick O true time poses ctx).1).samples = [] ∧
      ((CalibrationTick O true time poses ctx).1).calibratedRotation =
        (CalibrateRotation O (ctx.samples ++
          [⟨(poses ctx.referenceID).mDeviceToAbsoluteTracking,
            (poses ctx.targetID).mDeviceToAbsoluteTracking, true⟩])).1 ∧
      (CalibrationTick O true time poses ctx).2 =
        [Event.setWorldFromDriverRotationOffset ctx.targetID
          (VRRotationQuat (CalibrateRotation O (ctx.samples ++
            [⟨(poses ctx.referenceID).mDeviceToAbsoluteTracking,
              (poses ctx.targetID).mDeviceToAbsoluteTracking, true⟩])).1),
         Event.enableDeviceOffsets ctx.targetID true]) ∧
    (ctx.samples.length + 1 < 100 →
      ((CalibrationTick O true time poses ctx).1).state = CalibrationState.Rotation ∧
      ((CalibrationTick O true time poses ctx).1).samples = ctx.samples ++
        [⟨(poses ctx.referenceID).mDeviceToAbsoluteTracking,
          (poses ctx.targetID).mDeviceToAbsoluteTracking, true⟩] ∧
      ((CalibrationTick O true time poses ctx).1).calibratedRotation = ctx.calibratedRotation ∧
      (CalibrationTick O true time poses ctx).2 = []) := by
  have hok : ((poses ctx.referenceID).bPoseIsValid && (poses ctx.targetID).bPoseIsValid) = true := by
    rw [href, htgt]; rfl
  rw [tick_rotation_eq O time poses ctx htime hstate]
  constructor
  · intro h99
    have hlen : ctx.samples.length + 1 = 100 := by rw [h99]
    simp only [tickSampling]
    rw [CollectSample_ok poses { ctx with timeLastTick := time } hok]
    simp [totalSamples, hlen, hstate]
  · intro hlt
    have hlen : ¬ ctx.samples.length + 1 = 100 := Nat.ne_of_lt hlt
    simp only [tickSampling]
    rw [CollectSample_ok poses { ctx with timeLastTick := time } hok]
    simp [totalSamples, hlen, hstate]

/-- A context in the `Rotation` state holding 99 valid samples. -/
def ctxRotation99 : CalibrationContext :=
  { initialContext with
    state := CalibrationState.Rotation
    referenceID := 0
    targetID := 1
    samples := List.replicate 99 ⟨defaultPose, defaultPose, true⟩ }

/-- Witness for C5: the 100th sample triggers the phase change and clears
the accumulator. -/
theorem C5_rotation_batch_completion_witness :
    ((CalibrationTick oracle0 true 1 posesTracking ctxRotation99).1).state
      = CalibrationState.Translation ∧
    ((CalibrationTick oracle0 true 1 posesTracking ctxRotation99).1).samples = [] :=
  let h := C5_rotation_batch_completion oracle0 1 posesTracking ctxRotation99
    (by norm_num [ctxRotation99, initialContext]) rfl rfl rfl
  ⟨(h.1 (by simp [ctxRotation99])).1, (h.1 (by simp [ctxRotation99])).2.1⟩

/-- Claim C1, trace of the defect:  A tick that loses tracking with a
50-sample partial batch in `Rotation` does return the machine to `None`,
but the partial batch is retained: neither the abort, nor
`StartCalibration`, nor the successful `Begin` transition clears the
function-static accumulator, so the next run resumes with 50 stale
samples instead of starting from zero. -/
theorem C1_partial_batch_retained (O : Oracles) (t1 t2 : ℝ)
    (posesL posesG : ℤ → TrackedDevicePose) (ctx : CalibrationContext)
    (ht1 : ¬ t1 - ctx.timeLastTick < 0.05)
    (hstate : ctx.state = CalibrationState.Rotation)
    (hlen : ctx.samples.length = 50)
    (hlost : (posesL ctx.referenceID).bPoseIsValid = false)
    (ht2 : ¬ t2 - t1 < 0.05)
    (href : ctx.referenceID ≠ -1) (htgt : ctx.targetID ≠ -1)
    (hgref : (posesG ctx.referenceID).bPoseIsValid = true)
    (hgtgt : (posesG ctx.targetID).bPoseIsValid = true) :
    ((CalibrationTick O true t1 posesL ctx).1).state = CalibrationState.None ∧
    ((CalibrationTick O true t1 posesL ctx).1).samples = ctx.samples ∧
    ((CalibrationTick O true t2 posesG
        (StartCalibration (CalibrationTick O true t1 posesL ctx).1)).1).state
      = CalibrationState.Rotation ∧
    ((CalibrationTick O true t2 posesG
        (StartCalibration (CalibrationTick O true t1 posesL ctx).1)).1).samples
      = ctx.samples ∧
    ((CalibrationTick O true t2 posesG
        (StartCalibration (CalibrationTick O true t1 posesL ctx).1)).1).samples.length = 50 := by
  have hlostok : ((posesL ctx.referenceID).bPoseIsValid && (posesL ctx.targetID).bPoseIsValid) = false := by
    rw [hlost]; rfl
  have habort := tickSampling_fail O posesL { ctx with timeLastTick := t1 } hlostok
  have hc1state : ((CalibrationTick O true t1 posesL ctx).1).state = CalibrationState.None := by
    rw [tick_rotation_eq O t1 posesL ctx ht1 hstate]; exact habort.1
  have hc1samples : ((CalibrationTick O true t1 posesL ctx).1).samples = ctx.samples := by
    rw [tick_rotation_eq O t1 posesL ctx ht1 hstate]; exact habort.2
  have hc1last : ((CalibrationTick O true t1 posesL ctx).1).timeLastTick = t1 :=
    tick_processed_timeLastTick O t1 posesL ctx ht1
  have hc1ref : ((CalibrationTick O true t1 posesL ctx).1).referenceID = ctx.referenceID :=
    (tick_ids O true t1 posesL ctx).1
  have hc1tgt : ((CalibrationTick O true t1 posesL ctx).1).targetID = ctx.targetID :=
    (tick_ids O true t1 posesL ctx).2
  have ht2' : ¬ t2 - (StartCalibration (CalibrationTick O true t1 posesL ctx).1).timeLastTick < 0.05 := by
    show ¬ t2 - ((CalibrationTick O true t1 posesL ctx).1).timeLastTick < 0.05
    rw [hc1last]; exact ht2
  rw [tick_begin_eq O t2 posesG _ ht2' rfl]
  refine ⟨hc1state, hc1samples, ?_, ?_, ?_⟩
  · simp [tickBegin, StartCalibration, hc1ref, hc1tgt, href, htgt, hgref, hgtgt]
  · rw [tickBegin_samples]
    show (StartCalibration (CalibrationTick O true t1 posesL ctx).1).samples = ctx.samples
    show ((CalibrationTick O true t1 posesL ctx).1).samples = ctx.samples
    exact hc1samples
  · rw [tickBegin_samples]
    show (StartCalibration (CalibrationTick O true t1 posesL ctx).1).samples.length = 50
    show ((CalibrationTick O true t1 posesL ctx).1).samples.length = 50
    rw [hc1samples, hlen]

/-- A context in the `Rotation` state holding 50 valid samples. -/
def ctxRotation50 : CalibrationContext :=
  { initialContext with
    state := CalibrationState.Rotation
    referenceID := 0
    targetID := 1
    samples := List.replicate 50 ⟨defaultPose, defaultPose, true⟩ }

/-- Witness for C1 at the failing input: after tracking loss at 50 samples
and a restart reaching `Rotation`, the accumulator still holds the 50 stale
samples. -/
theorem C1_partial_batch_retained_witness :
    ((CalibrationTick oracle0 true 2 posesTracking
        (StartCalibration (CalibrationTick oracle0 true 1 posesLost ctxRotation50).1)).1).state
      = CalibrationState.Rotation ∧
    ((CalibrationTick oracle0 true 2 posesTracking
        (StartCalibration (CalibrationTick oracle0 true 1 posesLost ctxRotation50).1)).1).samples.length
      = 50 :=
  let h := C1_partial_batch_retained oracle0 1 2 posesLost posesTracking ctxRotation50
    (by norm_num [ctxRotation50, initialContext]) rfl (by simp [ctxRotation50]) rfl
    (by norm_num) (by simp [ctxRotation50]) (by simp [ctxRotation50]) rfl rfl
  ⟨h.2.2.1, h.2.2.2.2⟩

lemma length_flatMap_range_two {α : Type} (n : ℕ) (g : ℕ → List α)
    (hg : ∀ j, (g j).length = 2) :
    ((List.range n).flatMap g).length = 2 * n := by
  induction n with
  | zero => rfl
  | succ m ih =>
      rw [List.range_succ, List.flatMap_append, List.length_append, ih]
      simp [hg]
      ring

lemma length_flatMap_range_pairs {α : Type} (n : ℕ) (g : ℕ → ℕ → List α)
    (hg : ∀ i j, (g i j).length = 2) :
    ((List.range n).flatMap (fun i => (List.range i).flatMap (g i))).length
      = n * (n - 1) := by
  induction n with
  | zero => rfl
  | succ m ih =>
      rw [List.range_succ, List.flatMap_append, List.length_append, ih]
      simp [length_flatMap_range_two m (g m) (hg m)]
      rcases m with _ | k
      · rfl
      · simp [Nat.succ_sub_one]
        ring

lemma two_mul_half_pairs (n : ℕ) : 2 * (n * (n - 1) / 2) = n * (n - 1) := by
  have h : 2 ∣ n * (n - 1) := by
    rcases n with _ | m
    · simp
    · rw [Nat.succ_sub_one, Nat.mul_comm]
      exact (Nat.even_mul_succ_self m).two_dvd
  exact Nat.mul_div_cancel' h

lemma transDeltasOf_length (samples : List Sample) :
    (transDeltasOf samples).length = samples.length * (samples.length - 1) := by
  unfold transDeltasOf
  exact length_flatMap_range_pairs samples.length _ (fun i j => rfl)

lemma length_flatMap_triples {α β : Type} (l : List α) (f g h : α → β) :
    (l.flatMap (fun d => [f d, g d, h d])).length = 3 * l.length := by
  induction l with
  | nil => rfl
  | cons a t ih =>
      rw [List.flatMap_cons, List.length_append, ih]
      simp
      ring

/-- Claim C7: The translation calibrator builds exactly two 3-equation blocks
per unordered pair of distinct samples — a system of
`3 · 2 · (N·(N−1)/2)` equations in 3 unknowns — hands it to the SVD-based
least-squares solver, and returns the solution scaled by 100 into
centimeters. -/
theorem C7_translation_system (O : Oracles) (samples : List Sample) :
    (transDeltasOf samples).length = 2 * (samples.length * (samples.length - 1) / 2) ∧
    (constantsOf samples).length = 3 * 2 * (samples.length * (samples.length - 1) / 2) ∧
    (coefficientsOf samples).length = 3 * 2 * (samples.length * (samples.length - 1) / 2) ∧
    (CalibrateTranslation O samples).1 =
      fun k => O.lsqSolve (coefficientsOf samples) (constantsOf samples) k * 100 := by
  have hpairs := transDeltasOf_length samples
  have heven := two_mul_half_pairs samples.length
  refine ⟨by rw [hpairs, heven], ?_, ?_, rfl⟩
  · unfold constantsOf
    rw [length_flatMap_triples (transDeltasOf samples) _ _ _, hpairs,
      Nat.mul_assoc, heven]
  · unfold coefficientsOf
    rw [length_flatMap_triples (transDeltasOf samples) _ _ _, hpairs,
      Nat.mul_assoc, heven]

/-- Claim C6: The rotation calibrator decomposes the centered cross-covariance
by SVD; whenever `U · Vᵀ` has negative determinant it composes with
`diag(1,1,−1)`, negating the axis of the smallest singular value (the
singular values being sorted decreasingly); it transposes the composed
rotation and returns it as Euler angles in degrees with axis order Z, Y,
X. -/
theorem C6_kabsch_rotation (O : Oracles) (samples : List Sample)
    (hsort : (O.svd (crossCovOf samples)).S 1 ≤ (O.svd (crossCovOf samples)).S 0 ∧
             (O.svd (crossCovOf samples)).S 2 ≤ (O.svd (crossCovOf samples)).S 1) :
    ((((O.svd (crossCovOf samples)).U * (O.svd (crossCovOf samples)).V.transpose).det < 0 →
      (CalibrateRotation O samples).1 =
        (fun k => O.eulerAngles210
          (((O.svd (crossCovOf samples)).V * Matrix.diagonal ![1, 1, -1] *
            (O.svd (crossCovOf samples)).U.transpose).transpose) k * (180 / Real.pi)) ∧
      (∀ j, (O.svd (crossCovOf samples)).S 2 ≤ (O.svd (crossCovOf samples)).S j))) ∧
    (¬ (((O.svd (crossCovOf samples)).U * (O.svd (crossCovOf samples)).V.transpose).det < 0) →
      (CalibrateRotation O samples).1 =
        fun k => O.eulerAngles210
          (((O.svd (crossCovOf samples)).V * 1 *
            (O.svd (crossCovOf samples)).U.transpose).transpose) k * (180 / Real.pi)) := by
  constructor
  · intro hdet
    constructor
    · show kabschEulerDegrees O (crossCovOf samples) = _
      simp only [kabschEulerDegrees]
      rw [if_pos hdet]
    · intro j
      fin_cases j
      · exact le_trans hsort.2 hsort.1
      · exact hsort.2
      · exact le_rfl
  · intro hdet
    show kabschEulerDegrees O (crossCovOf samples) = _
    simp only [kabschEulerDegrees]
    rw [if_neg hdet]

/-- Witness for C6 at a concrete oracle with decreasing singular values. -/
theorem C6_kabsch_rotation_witness :
    ((oracle0.svd (crossCovOf [])).S 1 ≤ (oracle0.svd (crossCovOf [])).S 0 ∧
     (oracle0.svd (crossCovOf [])).S 2 ≤ (oracle0.svd (crossCovOf [])).S 1) ∧
    (CalibrateRotation oracle0 []).1 =
      fun k => oracle0.eulerAngles210
        (((oracle0.svd (crossCovOf [])).V * 1 *
          (oracle0.svd (crossCovOf [])).U.transpose).transpose) k * (180 / Real.pi) := by
  have hsort : (oracle0.svd (crossCovOf [])).S 1 ≤ (oracle0.svd (crossCovOf [])).S 0 ∧
      (oracle0.svd (crossCovOf [])).S 2 ≤ (oracle0.svd (crossCovOf [])).S 1 := by
    constructor
    · show (2:ℝ) ≤ 3
      norm_num
    · show (1:ℝ) ≤ 2
      norm_num
  have hdet : ¬ (((oracle0.svd (crossCovOf [])).U *
      (oracle0.svd (crossCovOf [])).V.transpose).det < 0) := by
    show ¬ ((1:M3) * (1:M3).transpose).det < 0
    rw [Matrix.transpose_one, mul_one, Matrix.det_one]
    norm_num
  exact ⟨hsort, (C6_kabsch_rotation oracle0 [] hsort).2 hdet⟩

/-- Claim C10: When every pair of samples yields an invalid delta sample the
delta list is empty, yet the centroid computation still divides the
accumulators by the zero delta count (no error branch exists): the
cross-covariance degenerates to the zero matrix and the calibrator still
returns the result of the SVD pipeline on it.  (In this real-valued model
the unguarded division by zero renders as 0; in the source's IEEE
arithmetic it yields NaN centroids.) -/
theorem C10_empty_delta_division (O : Oracles) (samples : List Sample)
    (hd : deltasOf samples = []) :
    ((deltasOf samples).length : ℝ) = 0 ∧
    refCentroidOf samples =
      (fun k => ((deltasOf samples).map (fun d => d.ref k)).sum / 0) ∧
    targetCentroidOf samples =
      (fun k => ((deltasOf samples).map (fun d => d.target k)).sum / 0) ∧
    crossCovOf samples = 0 ∧
    (CalibrateRotation O samples).1 = kabschEulerDegrees O 0 ∧
    (CalibrateRotation O samples).2 =
      [Msg.gotSamples samples.length 0, Msg.calibratedRotationIs (kabschEulerDegrees O 0)] := by
  have hlen : ((deltasOf samples).length : ℝ) = 0 := by rw [hd]; simp
  have hcc : crossCovOf samples = 0 := by
    funext k l
    unfold crossCovOf
    rw [hd]
    rfl
  refine ⟨hlen, ?_, ?_, hcc, ?_, ?_⟩
  · funext k
    unfold refCentroidOf
    rw [hd]
    simp
  · funext k
    unfold targetCentroidOf
    rw [hd]
    simp
  · show kabschEulerDegrees O (crossCovOf samples) = _
    rw [hcc]
  · show [Msg.gotSamples samples.length (deltasOf samples).length,
      Msg.calibratedRotationIs (kabschEulerDegrees O (crossCovOf samples))] = _
    rw [hd, hcc]
    simp

lemma one_M3_trace_entries : ((1:M3) 0 0 + (1:M3) 1 1 + (1:M3) 2 2 - 1) / 2 = 1 := by
  norm_num [Matrix.one_apply]

lemma not_valid_BB : ¬ (DeltaRotationSamples sampleB sampleB).valid := by
  rintro ⟨h1, -, -, -⟩
  rw [show sampleB.ref.rot * sampleB.ref.rot.transpose = 1 from by
    rw [show sampleB.ref.rot = (1:M3) from rfl, Matrix.transpose_one, mul_one]] at h1
  rw [show AngleFromRotationMatrix3 (1:M3) = 0 from by
    unfold AngleFromRotationMatrix3
    rw [one_M3_trace_entries]
    exact Real.arccos_one] at h1
  norm_num at h1

lemma deltasOf_pair_same : deltasOf [sampleB, sampleB] = [] := by
  simp only [deltasOf]
  rw [show ([sampleB, sampleB] : List Sample).length = 2 from rfl,
    show List.range 2 = [0, 1] from rfl]
  simp only [List.flatMap_cons, List.flatMap_nil, List.append_nil]
  rw [show List.range 0 = ([] : List ℕ) from rfl,
    show List.range 1 = [0] from rfl]
  simp only [List.filterMap_nil, List.filterMap_cons, List.nil_append]
  rw [show ([sampleB, sampleB] : List Sample).getD 1 default = sampleB from rfl,
    show ([sampleB, sampleB] : List Sample).getD 0 default = sampleB from rfl,
    if_neg not_valid_BB]

/-- Witness for C10: two identical samples produce an empty delta list, a
zero divisor, and the calibrator still returns the degenerate pipeline
value. -/
theorem C10_empty_delta_division_witness :
    deltasOf [sampleB, sampleB] = [] ∧
    ((deltasOf [sampleB, sampleB]).length : ℝ) = 0 ∧
    (CalibrateRotation oracle0 [sampleB, sampleB]).1 = kabschEulerDegrees oracle0 0 :=
  ⟨deltasOf_pair_same,
   (C10_empty_delta_division oracle0 [sampleB, sampleB] deltasOf_pair_same).1,
   (C10_empty_delta_division oracle0 [sampleB, sampleB] deltasOf_pair_same).2.2.2.2.1⟩

/-- Normalizing a vector of positive norm yields a unit vector. -/
lemma vnorm_vnormalize {v : V3} (h : 0 < vnorm v) : vnorm (vnormalize v) = 1 := by
  have hs : (0 : ℝ) ≤ v 0 ^ 2 + v 1 ^ 2 + v 2 ^ 2 := by positivity
  have hn : vnorm v ^ 2 = v 0 ^ 2 + v 1 ^ 2 + v 2 ^ 2 := Real.sq_sqrt hs
  have hne : vnorm v ≠ 0 := ne_of_gt h
  show Real.sqrt ((v 0 / vnorm v) ^ 2 + (v 1 / vnorm v) ^ 2 + (v 2 / vnorm v) ^ 2) = 1
  have hq : (v 0 / vnorm v) ^ 2 + (v 1 / vnorm v) ^ 2 + (v 2 / vnorm v) ^ 2
      = (v 0 ^ 2 + v 1 ^ 2 + v 2 ^ 2) / (vnorm v) ^ 2 := by ring
  rw [hq, ← hn, div_self (pow_ne_zero 2 hne), Real.sqrt_one]

/-- Claim C2: For every pair of valid `Sample`s, the derived delta sample is
valid iff both relative-rotation angles exceed 0.4 rad and both axis
vectors have norm above 0.01 before normalization; when valid, both
returned axis vectors are unit vectors; if either angle is below 0.4 rad,
the delta sample is invalid. -/
theorem C2_delta_sample_validity (s1 s2 : Sample)
    (hs1 : s1.valid = true) (hs2 : s2.valid = true) :
    ((DeltaRotationSamples s1 s2).valid ↔
      (AngleFromRotationMatrix3 (s1.ref.rot * s2.ref.rot.transpose) > 0.4 ∧
       AngleFromRotationMatrix3 (s1.target.rot * s2.target.rot.transpose) > 0.4 ∧
       vnorm (AxisFromRotationMatrix3 (s1.ref.rot * s2.ref.rot.transpose)) > 0.01 ∧
       vnorm (AxisFromRotationMatrix3 (s1.target.rot * s2.target.rot.transpose)) > 0.01)) ∧
    ((DeltaRotationSamples s1 s2).valid →
      vnorm (DeltaRotationSamples s1 s2).ref = 1 ∧
      vnorm (DeltaRotationSamples s1 s2).target = 1) ∧
    ((AngleFromRotationMatrix3 (s1.ref.rot * s2.ref.rot.transpose) < 0.4 ∨
      AngleFromRotationMatrix3 (s1.target.rot * s2.target.rot.transpose) < 0.4) →
      ¬ (DeltaRotationSamples s1 s2).valid) := by
  refine ⟨Iff.rfl, ?_, ?_⟩
  · rintro ⟨-, -, hr, ht⟩
    constructor
    · exact vnorm_vnormalize (lt_trans (by norm_num) hr)
    · exact vnorm_vnormalize (lt_trans (by norm_num) ht)
  · rintro (h | h) ⟨ha, hb, -, -⟩
    · exact absurd ha (not_lt.mpr h.le)
    · exact absurd hb (not_lt.mpr h.le)

lemma angle_Rz90 : AngleFromRotationMatrix3 Rz90 = Real.pi / 2 := by
  unfold AngleFromRotationMatrix3
  rw [show Rz90 0 0 = 0 from rfl, show Rz90 1 1 = 0 from rfl, show Rz90 2 2 = 1 from rfl]
  norm_num [Real.arccos_zero]

lemma vnorm_axis_Rz90 : vnorm (AxisFromRotationMatrix3 Rz90) = 2 := by
  have h0 : AxisFromRotationMatrix3 Rz90 0 = Rz90 2 1 - Rz90 1 2 := rfl
  have h1 : AxisFromRotationMatrix3 Rz90 1 = Rz90 0 2 - Rz90 2 0 := rfl
  have h2 : AxisFromRotationMatrix3 Rz90 2 = Rz90 1 0 - Rz90 0 1 := rfl
  unfold vnorm
  rw [h0, h1, h2, show Rz90 2 1 = 0 from rfl, show Rz90 1 2 = 0 from rfl,
    show Rz90 0 2 = 0 from rfl, show Rz90 2 0 = 0 from rfl,
    show Rz90 1 0 = 1 from rfl, show Rz90 0 1 = -1 from rfl]
  rw [show ((0:ℝ)-0)^2 + ((0:ℝ)-0)^2 + ((1:ℝ)-(-1))^2 = 2^2 from by ring]
  exact Real.sqrt_sq (by norm_num)

lemma dref_AB : sampleA.ref.rot * sampleB.ref.rot.transpose = Rz90 := by
  show Rz90 * (1:M3).transpose = Rz90
  rw [Matrix.transpose_one, mul_one]

lemma dtarget_AB : sampleA.target.rot * sampleB.target.rot.transpose = Rz90 := by
  show Rz90 * (1:M3).transpose = Rz90
  rw [Matrix.transpose_one, mul_one]

lemma valid_AB : (DeltaRotationSamples sampleA sampleB).valid := by
  show AngleFromRotationMatrix3 (sampleA.ref.rot * sampleB.ref.rot.transpose) > 0.4 ∧
       AngleFromRotationMatrix3 (sampleA.target.rot * sampleB.target.rot.transpose) > 0.4 ∧
       vnorm (AxisFromRotationMatrix3 (sampleA.ref.rot * sampleB.ref.rot.transpose)) > 0.01 ∧
       vnorm (AxisFromRotationMatrix3 (sampleA.target.rot * sampleB.target.rot.transpose)) > 0.01
  rw [dref_AB, dtarget_AB, angle_Rz90, vnorm_axis_Rz90]
  have hπ := Real.pi_gt_three
  refine ⟨by linarith, by linarith, by norm_num, by norm_num⟩

/-- Witness for C2: at the concrete valid samples `sampleA`, `sampleB` the
delta sample is valid and both returned axes are unit vectors. -/
theorem C2_delta_sample_validity_witness :
    sampleA.valid = true ∧ sampleB.valid = true ∧
    vnorm (DeltaRotationSamples sampleA sampleB).ref = 1 ∧
    vnorm (DeltaRotationSamples sampleA sampleB).target = 1 :=
  ⟨rfl, rfl, (C2_delta_sample_validity sampleA sampleB rfl rfl).2.1 valid_AB⟩

end OVRSC
